import Mathlib

/-!
Verification development for the motionshop edge-function repository.

The relational state touched by the handlers (users, items, categories,
join table, inventory, purchase ledger, audit tables) is modelled as lists
of rows; every handler becomes a pure function from a request and a
database state to a new database state together with an Except-style
result, mirroring the throw/rollback structure of the JavaScript source.
JavaScript numbers are modelled as integers (they are IEEE doubles in the
source, but every value and operation the claims touch is integral, where
double arithmetic is exact); SQL transactions are modelled by returning the pre-call state
whenever the body throws (an uncommitted transaction is never visible),
with injectable faults for the audit insert and for the rollback call so
that the catch-block behaviour of each handler can be stated exactly.
-/

namespace Motionshop

/-- Decidable equality of Except results, used to evaluate handler runs on
concrete states. -/
instance instDecEqExcept {ε α : Type} [DecidableEq ε] [DecidableEq α] :
    DecidableEq (Except ε α) := fun a b =>
  match a, b with
  | Except.error e1, Except.error e2 =>
    if h : e1 = e2 then Decidable.isTrue (by rw [h])
    else Decidable.isFalse (fun hc => h (Except.error.inj hc))
  | Except.error _, Except.ok _ => Decidable.isFalse (fun hc => Except.noConfusion hc)
  | Except.ok _, Except.error _ => Decidable.isFalse (fun hc => Except.noConfusion hc)
  | Except.ok a1, Except.ok a2 =>
    if h : a1 = a2 then Decidable.isTrue (by rw [h])
    else Decidable.isFalse (fun hc => h (Except.ok.inj hc))

/-- Char-list matcher used to model the JavaScript string.includes test:
does the first list occur at the head of the second? -/
def charsHeadMatch : List Char → List Char → Bool
  | [], _ => true
  | _ :: _, [] => false
  | p :: ps, c :: cs => p == c && charsHeadMatch ps cs

/-- Does the first char list occur anywhere inside the second? -/
def charsContains (pat : List Char) : List Char → Bool
  | [] => charsHeadMatch pat []
  | c :: cs => charsHeadMatch pat (c :: cs) || charsContains pat cs

/-- Model of the JavaScript string.includes(pat) test on s. -/
def strContains (s pat : String) : Bool :=
  charsContains pat.data s.data

/-- parseInt on a JavaScript number that may be NaN (modelled as none);
parseInt maps NaN to NaN and an integral finite number to itself. -/
def jsParseIntOfNum : Option Int → Option Int
  | none => none
  | some q => some q

/-- Lexicographic comparison of char lists, modelling SQL ascending text order. -/
def charsLe : List Char → List Char → Bool
  | [], _ => true
  | _ :: _, [] => false
  | a :: as, b :: bs => if a == b then charsLe as bs else decide (a < b)

/-- A row of the categories table (time columns, which are opaque to every
claim, are elided). -/
structure CategoryRow where
  id : Int
  name : String
  image : String
  is_active : Int
  is_deleted : Int
  edited_by : Int
deriving DecidableEq

/-- A row of the items table. -/
structure ItemRow where
  id : Int
  name : String
  description : String
  price : Int
  image : String
  is_active : Int
  is_deleted : Int
  created_at : Int
  edited_by : Int
deriving DecidableEq

/-- A row of the users table: internal primary key, external forum id, credits. -/
structure UserRow where
  id : Int
  user_id : Int
  credits : Int
deriving DecidableEq

/-- A row of the item_categories join table. -/
structure JoinRow where
  item_id : Int
  category_id : Int
deriving DecidableEq

/-- A row of the inventory table. -/
structure InventoryRow where
  user_id : Int
  item_id : Int
  total_quantity : Int
  quantity_in_bag : Int
deriving DecidableEq

/-- A row of the purchase_transactions ledger. -/
structure PurchaseTransactionRow where
  id : Int
  user_id : Int
  credits_before : Int
  credits_after : Int
  total_credits_spent : Int
deriving DecidableEq

/-- A row of the purchase_items table. -/
structure PurchaseItemRow where
  transaction_id : Int
  item_id : Int
  quantity : Int
  item_price : Int
deriving DecidableEq

/-- An audit row for the items_audit and categories_audit tables (the
JSON-serialized snapshots are elided; the claims count rows and inspect
the action type). -/
structure AuditRow where
  entity_id : Int
  user_id : Int
  action_type : String
deriving DecidableEq

/-- A row of the users_audit table. -/
structure UserAuditRow where
  user_id : Int
  action_type : String
deriving DecidableEq

/-- A row of the purchases_audit table. -/
structure PurchaseAuditRow where
  transaction_id : Int
  user_id : Int
  credits_before : Int
  credits_after : Int
  total_credits_spent : Int
deriving DecidableEq

/-- The database state seen by the handlers. -/
structure DB where
  users : List UserRow
  items : List ItemRow
  categories : List CategoryRow
  item_categories : List JoinRow
  inventory : List InventoryRow
  purchase_transactions : List PurchaseTransactionRow
  purchase_items : List PurchaseItemRow
  items_audit : List AuditRow
  categories_audit : List AuditRow
  users_audit : List UserAuditRow
  purchases_audit : List PurchaseAuditRow
deriving DecidableEq

/-- Injectable environment faults for a transaction: the audit INSERT may
throw, and the rollback call itself may throw. -/
structure TxFaults where
  auditFails : Option String
  rollbackFails : Option String
deriving DecidableEq

/-- The fault-free environment: every SQL statement and the rollback succeed. -/
def noFaults : TxFaults := { auditFails := none, rollbackFails := none }

/-! ## Purchase workflow (delete-item.js companion purchase handler, part_000) -/

/-- A line of the client-submitted cart: item_id, quantity and price exactly
as sent in the request body. -/
structure CartItem where
  item_id : Int
  quantity : Int
  price : Int
deriving DecidableEq

/-- The body of validatePurchaseData's forEach: the truthiness test on
item_id, quantity and price (0 is falsy) followed by the sign checks, each
error naming the offending index. -/
def validateCartItems : Nat → List CartItem → Except String Unit
  | _, [] => Except.ok ()
  | i, it :: rest =>
    if it.item_id == 0 || it.quantity == 0 || it.price == 0 then
      Except.error ("Invalid item data at position " ++ toString i)
    else if it.quantity ≤ 0 then
      Except.error ("Invalid quantity for item at position " ++ toString i)
    else if it.price ≤ 0 then
      Except.error ("Invalid price for item at position " ++ toString i)
    else validateCartItems (i + 1) rest

/-- validatePurchaseData: user_id must be truthy and items a non-empty
array, then each cart line is checked in order. -/
def validatePurchaseData (userId : Int) (items : List CartItem) : Except String Unit :=
  if userId == 0 || items.length == 0 then
    Except.error "Invalid purchase data structure"
  else validateCartItems 0 items

/-- The reduce that the handler and processPurchaseTransaction both run:
total of price times quantity over the client-submitted cart. -/
def cartTotal (items : List CartItem) : Int :=
  items.foldl (fun sum it => sum + it.price * it.quantity) 0

/-- verifyUserCredits: look up the user row by external user_id; absent is
an error, credits below the total is an error, else the stored credits are
returned. -/
def verifyUserCredits (db : DB) (userId : Int) (totalAmount : Int) : Except String Int :=
  match db.users.find? (fun u => u.user_id == userId) with
  | none => Except.error "User not found"
  | some u =>
    if u.credits < totalAmount then Except.error "Insufficient credits"
    else Except.ok u.credits

/-- verifyItems: the rows of the items table whose id is in the cart's id
list (each table row selected once), compared by count against the raw
cart length, then each found row checked for availability. -/
def verifyItems (db : DB) (items : List CartItem) : Except String Unit :=
  let itemIds := items.map (fun it => it.item_id)
  let foundItems := db.items.filter (fun r => itemIds.contains r.id)
  if foundItems.length ≠ itemIds.length then
    Except.error "One or more items not found"
  else
    match foundItems.find? (fun r => r.is_active == 0 || r.is_deleted != 0) with
    | some r => Except.error ("Item " ++ toString r.id ++ " is not available for purchase")
    | none => Except.ok ()

/-- One iteration of the purchase loop: insert the purchase_items row, then
upsert the inventory row for (user, item) — increment total_quantity when a
row exists, else insert a fresh row with quantity_in_bag zero. -/
def purchaseLineStep (userId transactionId : Int) (db : DB) (it : CartItem) : DB :=
  let db1 : DB := { db with purchase_items := db.purchase_items ++
    [{ transaction_id := transactionId, item_id := it.item_id,
       quantity := it.quantity, item_price := it.price }] }
  match db1.inventory.find? (fun r => r.user_id == userId && r.item_id == it.item_id) with
  | some row =>
    { db1 with inventory := db1.inventory.map (fun r =>
        if r.user_id == userId && r.item_id == it.item_id then
          { r with total_quantity := row.total_quantity + it.quantity }
        else r) }
  | none =>
    { db1 with inventory := db1.inventory ++
        [{ user_id := userId, item_id := it.item_id,
           total_quantity := it.quantity, quantity_in_bag := 0 }] }

/-- The rowid the INSERT into purchase_transactions produces in the model. -/
def nextTransactionId (db : DB) : Int :=
  Int.ofNat db.purchase_transactions.length + 1

/-- The JSON body a successful purchase returns. -/
structure PurchaseRes where
  transaction_id : Int
  credits_spent : Int
  credits_remaining : Int
  items_purchased : Nat
deriving DecidableEq

/-- processPurchaseTransaction: inside one transaction, insert the ledger
row, run the per-line loop, set the user's credits to creditsAfter, insert
the purchases_audit row, commit. -/
def processPurchaseTransaction (db : DB) (userId : Int) (items : List CartItem)
    (userCredits : Int) : DB × Except String PurchaseRes :=
  let totalAmount := cartTotal items
  let creditsAfter := userCredits - totalAmount
  let transactionId := nextTransactionId db
  let db1 : DB := { db with purchase_transactions := db.purchase_transactions ++
    [{ id := transactionId, user_id := userId, credits_before := userCredits,
       credits_after := creditsAfter, total_credits_spent := totalAmount }] }
  let db2 := items.foldl (purchaseLineStep userId transactionId) db1
  let db3 : DB := { db2 with users := db2.users.map (fun u =>
    if u.user_id == userId then { u with credits := creditsAfter } else u) }
  let db4 : DB := { db3 with purchases_audit := db3.purchases_audit ++
    [{ transaction_id := transactionId, user_id := userId,
       credits_before := userCredits, credits_after := creditsAfter,
       total_credits_spent := totalAmount }] }
  (db4, Except.ok { transaction_id := transactionId, credits_spent := totalAmount,
                    credits_remaining := creditsAfter, items_purchased := items.length })

/-- The purchase endpoint pipeline after method and API-key checks:
validation, total, credit check, item check, then the transaction. An
error leaves the database untouched. -/
def purchaseHandler (db : DB) (userId : Int) (items : List CartItem) :
    DB × Except String PurchaseRes :=
  match validatePurchaseData userId items with
  | Except.error e => (db, Except.error e)
  | Except.ok _ =>
    match verifyUserCredits db userId (cartTotal items) with
    | Except.error e => (db, Except.error e)
    | Except.ok userCredits =>
      match verifyItems db items with
      | Except.error e => (db, Except.error e)
      | Except.ok _ => processPurchaseTransaction db userId items userCredits

/-- The purchase handler's catch block: error message to HTTP status, each
later test overriding the earlier ones. -/
def purchaseStatus (msg : String) : Nat :=
  let s1 := if strContains msg "Invalid API key" then 403 else 500
  let s2 := if strContains msg "Invalid request data" then 400 else s1
  let s3 := if strContains msg "Insufficient credits" then 400 else s2
  let s4 := if strContains msg "User not found" then 404 else s3
  let s5 := if strContains msg "One or more items not found" then 404 else s4
  if msg == "Method not allowed" then 405 else s5

/-! ## Inventory reconciliation (update-item.js companion update-inventory handler) -/

/-- An element of the client-submitted inventory or bag array; the quantity
is a JavaScript number which may be NaN (none). -/
structure InvEntry where
  item_id : Int
  quantity : Option Int
deriving DecidableEq

/-- validateInventoryData: user_id truthy, both arrays present, and every
element must carry a truthy item_id and a numeric quantity (NaN is a
number, so it passes here). -/
def validateInventoryData (userId : Int) (inventory bag : List InvEntry) :
    Except String Unit :=
  if userId == 0 then Except.error "Invalid data structure"
  else
    match inventory.find? (fun it => it.item_id == 0) with
    | some _ => Except.error "Invalid inventory item data"
    | none =>
      match bag.find? (fun it => it.item_id == 0) with
      | some _ => Except.error "Invalid bag item data"
      | none => Except.ok ()

/-- The bag-side quantity the loop computes for one inventory entry:
parseInt of the first bag element with the same item_id, or 0 when none
matches. -/
def bagQuantityFor (bag : List InvEntry) (itemId : Int) : Option Int :=
  match bag.find? (fun b => b.item_id == itemId) with
  | some b => jsParseIntOfNum b.quantity
  | none => some 0

/-- The per-entry body of processInventoryUpdate's loop: parse both
quantities, run the three validity checks in source order, and produce the
row to insert; the recursion accumulates the rows of the whole loop. -/
def buildInventoryRows (userId : Int) (bag : List InvEntry) :
    List InvEntry → Except String (List InventoryRow)
  | [] => Except.ok []
  | it :: rest =>
    match jsParseIntOfNum it.quantity with
    | none => Except.error ("Invalid total quantity for item_id " ++ toString it.item_id)
    | some tq =>
      if tq < 0 then
        Except.error ("Invalid total quantity for item_id " ++ toString it.item_id)
      else
        match bagQuantityFor bag it.item_id with
        | none => Except.error ("Invalid bag quantity for item_id " ++ toString it.item_id)
        | some qb =>
          if qb < 0 then
            Except.error ("Invalid bag quantity for item_id " ++ toString it.item_id)
          else if tq < qb then
            Except.error ("Bag quantity (" ++ toString qb ++ ") exceeds total quantity ("
              ++ toString tq ++ ") for item_id " ++ toString it.item_id)
          else
            match buildInventoryRows userId bag rest with
            | Except.error e => Except.error e
            | Except.ok rows =>
              Except.ok ({ user_id := userId, item_id := it.item_id,
                           total_quantity := (tq : Int),
                           quantity_in_bag := (qb : Int) } :: rows)

/-- processInventoryUpdate: inside one transaction delete every inventory
row of the user, then insert one freshly validated row per inventory entry;
any check failure rolls the whole transaction back, leaving the pre-call
state. -/
def processInventoryUpdate (db : DB) (userId : Int) (inventory bag : List InvEntry) :
    DB × Except String String :=
  match buildInventoryRows userId bag inventory with
  | Except.error e => (db, Except.error e)
  | Except.ok rows =>
    ({ db with inventory := db.inventory.filter (fun r => !(r.user_id == userId)) ++ rows },
     Except.ok "Inventario y bolsa actualizados correctamente.")

/-- The bound check of one entry as the claim states it: true when the
entry's parsed quantities are NaN or negative or the bag quantity exceeds
the total. -/
def entryViolates (bag : List InvEntry) (it : InvEntry) : Bool :=
  match jsParseIntOfNum it.quantity with
  | none => true
  | some tq =>
    if tq < 0 then true
    else
      match bagQuantityFor bag it.item_id with
      | none => true
      | some qb => qb < 0 || tq < qb

/-! ## Item deletion (delete-item.js, part_000) -/

/-- softDeleteItem: one transaction that loads the item, rejects a missing
or already deleted row, applies the soft-delete UPDATE, re-reads the row,
and inserts the items_audit row. The catch block is the unguarded
rollback-then-rethrow of the source: when the rollback itself throws, the
rollback error is the one that escapes. -/
def softDeleteItem (f : TxFaults) (db : DB) (id userId : Int) :
    DB × Except String ItemRow :=
  let body : Except String (DB × ItemRow) :=
    match db.items.find? (fun r => r.id == id) with
    | none => Except.error "Item not found"
    | some oldItem =>
      if oldItem.is_deleted == 1 then Except.error "Item is already deleted"
      else
        let db1 : DB := { db with items := db.items.map (fun r =>
          if r.id == id then { r with is_active := 0, is_deleted := 1, edited_by := userId }
          else r) }
        match db1.items.find? (fun r => r.id == id) with
        | none => Except.error "Failed to verify item update"
        | some updatedItem =>
          match f.auditFails with
          | some e => Except.error e
          | none =>
            Except.ok ({ db1 with items_audit := db1.items_audit ++
              [{ entity_id := id, user_id := userId, action_type := "DELETE" }] },
              updatedItem)
  match body with
  | Except.ok (db2, item) => (db2, Except.ok item)
  | Except.error e =>
    match f.rollbackFails with
    | some rbErr => (db, Except.error rbErr)
    | none => (db, Except.error e)

/-! ## Category update, variant of part_004 (no is_deleted check, guarded rollback) -/

/-- updateCategory as in the part_004 handler: the current row is read
outside the transaction and a missing row rejected; inside the transaction
the UPDATE and the audit INSERT run and the id is returned. The catch
block wraps the rollback in its own try/catch, so a rollback failure is
only logged and the original error is rethrown. There is no is_deleted
check. -/
def updateCategoryP4 (f : TxFaults) (db : DB) (id : Int) (name image : String)
    (userId : Int) (isActive : Bool) : DB × Except String Int :=
  match db.categories.find? (fun c => c.id == id) with
  | none => (db, Except.error "Category not found")
  | some _ =>
    let isActiveInt : Int := if isActive then 1 else 0
    let body : Except String DB :=
      let db1 : DB := { db with categories := db.categories.map (fun c =>
        if c.id == id then
          { c with name := name, image := image, is_active := isActiveInt,
                   edited_by := userId }
        else c) }
      match f.auditFails with
      | some e => Except.error e
      | none =>
        Except.ok { db1 with categories_audit := db1.categories_audit ++
          [{ entity_id := id, user_id := userId, action_type := "UPDATE" }] }
    match body with
    | Except.ok db2 => (db2, Except.ok id)
    | Except.error e => (db, Except.error e)

/-! ## Category deletion with cascade (delete-category.js, first handler) -/

/-- The CTE query of softDeleteCategory: ids of non-deleted items that have
a join row to the category and whose total join-row count is exactly one. -/
def itemsToCascade (db : DB) (catId : Int) : List Int :=
  (db.items.filter (fun i =>
    i.is_deleted == 0 &&
    db.item_categories.any (fun j => j.item_id == i.id && j.category_id == catId) &&
    ((db.item_categories.filter (fun j => j.item_id == i.id)).length == 1))).map
    (fun i => i.id)

/-- softDeleteCategory: one transaction that soft-deletes the category,
soft-deletes the items whose only category it was, writes one items_audit
row per such item, removes every join row of the category, and writes the
categories_audit row; the old category row is returned. The catch block is
the unguarded rollback-then-rethrow of the source. -/
def softDeleteCategory (f : TxFaults) (db : DB) (id userId : Int) :
    DB × Except String CategoryRow :=
  let body : Except String (DB × CategoryRow) :=
    match db.categories.find? (fun c => c.id == id) with
    | none => Except.error "Category not found"
    | some oldCategory =>
      if oldCategory.is_deleted == 1 then Except.error "Category is already deleted"
      else
        let db1 : DB := { db with categories := db.categories.map (fun c =>
          if c.id == id then { c with is_active := 0, is_deleted := 1, edited_by := userId }
          else c) }
        let itemIds := itemsToCascade db1 id
        let db2 : DB := { db1 with items := db1.items.map (fun i =>
          if itemIds.contains i.id then
            { i with is_active := 0, is_deleted := 1, edited_by := userId }
          else i) }
        let cascadeAudit : List AuditRow := itemIds.map (fun iid =>
          { entity_id := iid, user_id := userId, action_type := "DELETE" })
        let db3 : DB := { db2 with items_audit := db2.items_audit ++ cascadeAudit }
        let db4 : DB := { db3 with item_categories :=
          db3.item_categories.filter (fun j => !(j.category_id == id)) }
        match f.auditFails with
        | some e => Except.error e
        | none =>
          Except.ok ({ db4 with categories_audit := db4.categories_audit ++
            [{ entity_id := id, user_id := userId, action_type := "DELETE" }] },
            oldCategory)
  match body with
  | Except.ok (db5, c) => (db5, Except.ok c)
  | Except.error e =>
    match f.rollbackFails with
    | some rbErr => (db, Except.error rbErr)
    | none => (db, Except.error e)

/-! ## Category deletion without cascade (delete-category.js, second handler) -/

/-- The second delete-category handler: soft-delete the category and write
the categories_audit row inside the transaction, commit, then re-read the
category. No is_deleted check, no item cascade, and the join rows of the
category are kept. -/
def deleteCategoryNoCascade (db : DB) (id userId : Int) :
    DB × Except String CategoryRow :=
  match db.categories.find? (fun c => c.id == id) with
  | none => (db, Except.error "Category not found")
  | some _ =>
    let db1 : DB := { db with categories := db.categories.map (fun c =>
      if c.id == id then { c with is_active := 0, is_deleted := 1, edited_by := userId }
      else c) }
    let db2 : DB := { db1 with categories_audit := db1.categories_audit ++
      [{ entity_id := id, user_id := userId, action_type := "DELETE" }] }
    match db2.categories.find? (fun c => c.id == id) with
    | none => (db2, Except.error "Category not found")
    | some updated => (db2, Except.ok updated)

/-! ## Item update (get-inventories.js companion update-item handler) -/

/-- updateItem as in the PUT update-item handler: reject a missing or
deleted item, apply the full-field UPDATE, re-read, insert the items_audit
row. -/
def updateItemGI (db : DB) (id : Int) (name description : String) (price : Int)
    (image : String) (userId : Int) (isActive : Bool) : DB × Except String ItemRow :=
  match db.items.find? (fun r => r.id == id) with
  | none => (db, Except.error "Item not found")
  | some oldItem =>
    if oldItem.is_deleted == 1 then (db, Except.error "Cannot update a deleted item")
    else
      let isActiveInt : Int := if isActive then 1 else 0
      let db1 : DB := { db with items := db.items.map (fun r =>
        if r.id == id then
          { r with name := name, description := description, price := price,
                   image := image, is_active := isActiveInt, edited_by := userId }
        else r) }
      match db1.items.find? (fun r => r.id == id) with
      | none => (db, Except.error "Failed to verify item update")
      | some updatedItem =>
        ({ db1 with items_audit := db1.items_audit ++
           [{ entity_id := id, user_id := userId, action_type := "UPDATE" }] },
         Except.ok updatedItem)

/-! ## Category update (netlify update-category.js, with is_deleted check) -/

/-- Result of the netlify updateCategory: either nothing differed or the
updated row. -/
inductive UpdateOutcome where
  | noUpdates : UpdateOutcome
  | updated : CategoryRow → UpdateOutcome
deriving DecidableEq

/-- updateCategory as in the netlify PATCH handler: reject a missing or
deleted category, fill absent fields from the current row, short-circuit
when nothing changes, else UPDATE, re-read and audit. -/
def updateCategoryNetlify (db : DB) (id : Int) (name image : Option String)
    (userId : Int) (isActive : Option Bool) : DB × Except String UpdateOutcome :=
  match db.categories.find? (fun c => c.id == id) with
  | none => (db, Except.error "Category not found")
  | some oldCategory =>
    if oldCategory.is_deleted == 1 then
      (db, Except.error "Cannot update a deleted category")
    else
      let updatedName := name.getD oldCategory.name
      let updatedImage := image.getD oldCategory.image
      let isActiveInt : Int :=
        match isActive with
        | some b => if b then 1 else 0
        | none => oldCategory.is_active
      if updatedName == oldCategory.name && updatedImage == oldCategory.image &&
         isActiveInt == oldCategory.is_active then
        (db, Except.ok UpdateOutcome.noUpdates)
      else
        let db1 : DB := { db with categories := db.categories.map (fun c =>
          if c.id == id then
            { c with name := updatedName, image := updatedImage,
                     is_active := isActiveInt, edited_by := userId }
          else c) }
        match db1.categories.find? (fun c => c.id == id) with
        | none => (db, Except.error "Failed to verify category update")
        | some updated =>
          ({ db1 with categories_audit := db1.categories_audit ++
             [{ entity_id := id, user_id := userId, action_type := "UPDATE" }] },
           Except.ok (UpdateOutcome.updated updated))

/-! ## Read layer -/

/-- The category join used by the item reads: enumerate the join rows of
the item and keep the matching category rows that are not soft-deleted. -/
def categoriesOfItem (db : DB) (itemId : Int) : List CategoryRow :=
  (db.item_categories.filter (fun j => j.item_id == itemId)).filterMap (fun j =>
    match db.categories.find? (fun c => c.id == j.category_id) with
    | some c => if c.is_deleted == 0 then some c else none
    | none => none)

/-- An item together with its joined categories, the shape of the item
read responses. -/
structure ItemWithCats where
  item : ItemRow
  categories : List CategoryRow
deriving DecidableEq

/-- getItems of part_008, single-item path: the item by id with
is_deleted = 0, joined with its non-deleted categories. -/
def getItemByIdP8 (db : DB) (id : Int) : Except String ItemWithCats :=
  match db.items.find? (fun i => i.id == id && i.is_deleted == 0) with
  | none => Except.error "Item not found"
  | some i => Except.ok { item := i, categories := categoriesOfItem db id }

/-- getItems of part_008, all-items path: every non-deleted item. -/
def getItemsAllP8 (db : DB) : List ItemRow :=
  db.items.filter (fun i => i.is_deleted == 0)

/-- The items of a category as selected by getCategories of part_005:
join rows of the category mapped to their non-deleted items. -/
def itemsOfCategoryP5 (db : DB) (catId : Int) : List ItemRow :=
  (db.item_categories.filter (fun j => j.category_id == catId)).filterMap (fun j =>
    match db.items.find? (fun i => i.id == j.item_id) with
    | some i => if i.is_deleted == 0 then some i else none
    | none => none)

/-- getCategories of part_005, single-category path: the category by id
with is_deleted = 0, together with its non-deleted items. -/
def getCategoryByIdP5 (db : DB) (id : Int) : Except String (CategoryRow × List ItemRow) :=
  match db.categories.find? (fun c => c.id == id && c.is_deleted == 0) with
  | none => Except.error "Category not found"
  | some c => Except.ok (c, itemsOfCategoryP5 db id)

/-- getCategories of part_005, all-categories path. -/
def getCategoriesAllP5 (db : DB) : List CategoryRow :=
  db.categories.filter (fun c => c.is_deleted == 0)

/-- The single-category read of the netlify get-categories handler: the
WHERE clause has no is_deleted condition. -/
def getCategoryByIdNetlify (db : DB) (id : Int) : Except String CategoryRow :=
  match db.categories.find? (fun c => c.id == id) with
  | none => Except.error "Category not found"
  | some c => Except.ok c

/-- The all-categories read of the netlify get-categories handler: every
row of the table, deleted or not. -/
def getCategoriesAllNetlify (db : DB) : List CategoryRow :=
  db.categories

/-- validateUrlParams of the get-categories handlers: only the id
parameter is recognised; the first unknown parameter is an error. -/
def validateUrlParamsGetCategories (params : List String) : Except String Unit :=
  match params.find? (fun p => !(["id"].contains p)) with
  | some p => Except.error ("Invalid parameter: " ++ p)
  | none => Except.ok ()

/-- validateUrlParams of the netlify get-items handler: id, category_id,
page and limit are recognised. -/
def validateUrlParamsGetItemsNetlify (params : List String) : Except String Unit :=
  match params.find? (fun p => !(["id", "category_id", "page", "limit"].contains p)) with
  | some p => Except.error ("Invalid parameter: " ++ p)
  | none => Except.ok ()

/-- The error-to-status chain of the get-categories handler of part_005. -/
def getCategoriesStatus (msg : String) : Nat :=
  let s1 := if strContains msg "API key" then 403 else 500
  let s2 := if msg == "Method not allowed" then 405 else s1
  let s3 := if msg == "Category not found" then 404 else s2
  let s4 := if strContains msg "Invalid parameter" then 400 else s3
  if strContains msg "Invalid category ID" then 400 else s4

/-- The limit half of validatePagination of the netlify get-items handler. -/
def validateLimitParam : Option Int → Except String Unit
  | some l => if l < 1 || 24 < l then Except.error "Invalid limit value" else Except.ok ()
  | none => Except.ok ()

/-- validatePagination of the netlify get-items handler: an absent
parameter passes; a present page below 1 or a present limit outside
1..24 is rejected. -/
def validatePagination (page limit : Option Int) : Except String Unit :=
  match page with
  | some p => if p < 1 then Except.error "Invalid page number" else validateLimitParam limit
  | none => validateLimitParam limit

/-- Descending insertion by created_at, modelling ORDER BY created_at DESC. -/
def insertByCreatedDesc (x : ItemRow) : List ItemRow → List ItemRow
  | [] => [x]
  | y :: ys =>
    if y.created_at ≤ x.created_at then x :: y :: ys
    else y :: insertByCreatedDesc x ys

/-- Insertion sort by created_at descending. -/
def sortByCreatedDesc : List ItemRow → List ItemRow
  | [] => []
  | x :: xs => insertByCreatedDesc x (sortByCreatedDesc xs)

/-- Ceiling division on naturals, the Math.ceil(total / limit) of the
pagination object for a positive limit. -/
def ceilDivNat (a b : Nat) : Nat := (a + b - 1) / b

/-- The pagination object of the paginated get-items responses. -/
structure Pagination where
  total : Nat
  page : Int
  limit : Int
  pages : Nat
deriving DecidableEq

/-- The body of a paginated get-items response. -/
structure ItemsPage where
  items : List ItemWithCats
  pagination : Pagination
deriving DecidableEq

/-- getItems of the netlify handler, all-items path: count the non-deleted
items, take one page of them ordered by created_at descending, join each
with its categories, and attach the pagination object. -/
def getItemsListNetlify (db : DB) (page limit : Int) : ItemsPage :=
  let nonDeleted := db.items.filter (fun i => i.is_deleted == 0)
  let total := nonDeleted.length
  let pageRows := ((sortByCreatedDesc nonDeleted).drop ((page - 1) * limit).toNat).take
    limit.toNat
  { items := pageRows.map (fun i => { item := i, categories := categoriesOfItem db i.id }),
    pagination := { total := total, page := page, limit := limit,
                    pages := ceilDivNat total limit.toNat } }

/-! ## Inventory and bag reads with lazy registration (get-inventories.js, get-bags.js) -/

/-- One element of the inventory array of a get-inventories response. -/
structure InvItemView where
  item : ItemRow
  total_quantity : Int
  quantity_in_bag : Int
  categories : List CategoryRow
deriving DecidableEq

/-- The body of a get-inventories response. -/
structure InvView where
  id : Int
  user_id : Int
  credits : Int
  inventory : List InvItemView
  bag : List InvItemView
deriving DecidableEq

/-- The internal rowid the INSERT into users produces in the model. -/
def nextUserPk (db : DB) : Int :=
  (db.users.map (fun u => u.id)).foldl max 0 + 1

/-- registerNewUser of get-inventories.js: one transaction inserting the
user with 100 credits, the users_audit INSERT row (keyed by the external
id), and a re-read of the user; the response carries empty inventory and
bag arrays. -/
def registerNewUser (db : DB) (userId : Int) : DB × Except String InvView :=
  let newUser : UserRow := { id := nextUserPk db, user_id := userId, credits := 100 }
  let db1 : DB := { db with users := db.users ++ [newUser] }
  let db2 : DB := { db1 with users_audit := db1.users_audit ++
    [{ user_id := userId, action_type := "INSERT" }] }
  match db2.users.find? (fun u => u.user_id == userId) with
  | none => (db, Except.error "Failed to register new user")
  | some user =>
    (db2, Except.ok { id := user.id, user_id := user.user_id, credits := user.credits,
                      inventory := [], bag := [] })

/-- Ascending insertion by item name, modelling ORDER BY i.name ASC. -/
def insertByNameAsc (x : InvItemView) : List InvItemView → List InvItemView
  | [] => [x]
  | y :: ys =>
    if charsLe x.item.name.data y.item.name.data then x :: y :: ys
    else y :: insertByNameAsc x ys

/-- Insertion sort of inventory views by item name ascending. -/
def sortInvByName : List InvItemView → List InvItemView
  | [] => []
  | x :: xs => insertByNameAsc x (sortInvByName xs)

/-- getInventory of get-inventories.js: lazily register an unknown
user_id; otherwise join the user's inventory rows (keyed by the internal
id) with their non-deleted items and non-deleted categories, order by item
name, and derive the bag as the entries with a positive bag quantity. -/
def getInventory (db : DB) (userId : Int) : DB × Except String InvView :=
  match db.users.find? (fun u => u.user_id == userId) with
  | none => registerNewUser db userId
  | some user =>
    let invRows := db.inventory.filter (fun r => r.user_id == user.id)
    let joined := invRows.filterMap (fun r =>
      match db.items.find? (fun i => i.id == r.item_id) with
      | some i =>
        if i.is_deleted == 0 then
          some { item := i, total_quantity := r.total_quantity,
                 quantity_in_bag := r.quantity_in_bag,
                 categories := categoriesOfItem db i.id }
        else none
      | none => none)
    let inventoryList := sortInvByName joined
    (db, Except.ok { id := user.id, user_id := user.user_id, credits := user.credits,
                     inventory := inventoryList,
                     bag := inventoryList.filter (fun e => 0 < e.quantity_in_bag) })

/-- One element of the bag array of a get-bags response. -/
structure BagItemView where
  item : ItemRow
  quantity : Int
  categories : List CategoryRow
deriving DecidableEq

/-- The body of a get-bags response; the inventory key is present only on
the lazily registered path. -/
structure BagView where
  id : Int
  user_id : Int
  credits : Int
  inventory : Option (List InvItemView)
  bag : List BagItemView
deriving DecidableEq

/-- registerNewUser of get-bags.js: the same transaction with the
users_audit row keyed by the new internal rowid. -/
def registerNewUserGB (db : DB) (userId : Int) : DB × Except String BagView :=
  let newId := nextUserPk db
  let db1 : DB := { db with users := db.users ++
    [{ id := newId, user_id := userId, credits := 100 }] }
  let db2 : DB := { db1 with users_audit := db1.users_audit ++
    [{ user_id := newId, action_type := "INSERT" }] }
  (db2, Except.ok { id := newId, user_id := userId, credits := 100,
                    inventory := some [], bag := [] })

/-- Ascending insertion of bag views by item name. -/
def insertBagByNameAsc (x : BagItemView) : List BagItemView → List BagItemView
  | [] => [x]
  | y :: ys =>
    if charsLe x.item.name.data y.item.name.data then x :: y :: ys
    else y :: insertBagByNameAsc x ys

/-- Insertion sort of bag views by item name ascending. -/
def sortBagByName : List BagItemView → List BagItemView
  | [] => []
  | x :: xs => insertBagByNameAsc x (sortBagByName xs)

/-- getBag of get-bags.js: lazily register an unknown user_id; otherwise
select the user's inventory rows with a positive bag quantity joined with
their non-deleted items and categories, ordered by item name. -/
def getBag (db : DB) (userId : Int) : DB × Except String BagView :=
  match db.users.find? (fun u => u.user_id == userId) with
  | none => registerNewUserGB db userId
  | some user =>
    let bagRows := db.inventory.filter (fun r =>
      r.user_id == user.id && 0 < r.quantity_in_bag)
    let joined := bagRows.filterMap (fun r =>
      match db.items.find? (fun i => i.id == r.item_id) with
      | some i =>
        if i.is_deleted == 0 then
          some { item := i, quantity := r.quantity_in_bag,
                 categories := categoriesOfItem db i.id }
        else none
      | none => none)
    (db, Except.ok { id := user.id, user_id := user.user_id, credits := user.credits,
                     inventory := none, bag := sortBagByName joined })

/-! ## Concrete states used to evaluate the theorems -/

/-- The empty database. -/
def emptyDB : DB :=
  { users := [], items := [], categories := [], item_categories := [],
    inventory := [], purchase_transactions := [], purchase_items := [],
    items_audit := [], categories_audit := [], users_audit := [],
    purchases_audit := [] }

/-- A live item row with the given id and price. -/
def mkItem (id : Int) (price : Int) : ItemRow :=
  { id := id, name := "Sword", description := "A sword", price := price,
    image := "sword.png", is_active := 1, is_deleted := 0, created_at := 1,
    edited_by := 1 }

/-- A live category row with the given id. -/
def mkCategory (id : Int) : CategoryRow :=
  { id := id, name := "Snacks", image := "snacks.png", is_active := 1,
    is_deleted := 0, edited_by := 1 }

/-- State for the purchase runs: user 7 with 100 credits and live item 1. -/
def purchaseDB : DB :=
  { emptyDB with users := [{ id := 1, user_id := 7, credits := 100 }],
                 items := [mkItem 1 10] }

/-- State for the insufficient-credits run: user 7 with 50 credits. -/
def poorUserDB : DB :=
  { emptyDB with users := [{ id := 1, user_id := 7, credits := 50 }],
                 items := [mkItem 1 10] }

/-- State for the rollback runs: live item 1 and live category 1. -/
def rollbackDB : DB :=
  { emptyDB with items := [mkItem 1 10], categories := [mkCategory 1] }

/-- State for the cascade counterexample: live category 1 whose only item
10 has it as sole category. -/
def soleCategoryDB : DB :=
  { emptyDB with categories := [mkCategory 1],
                 items := [mkItem 10 5],
                 item_categories := [{ item_id := 10, category_id := 1 }] }

/-- State with a soft-deleted item 1 and a soft-deleted category 1. -/
def deletedRowsDB : DB :=
  { emptyDB with
      items := [{ mkItem 1 10 with is_active := 0, is_deleted := 1 }],
      categories := [{ mkCategory 1 with name := "Old", is_active := 0, is_deleted := 1 }] }

/-- Defaulted purchase result used to name the components of a concrete run. -/
def defaultPurchaseRes : PurchaseRes :=
  { transaction_id := 0, credits_spent := 0, credits_remaining := 0, items_purchased := 0 }

/-- The cart of the concrete successful purchase run. -/
def w1Cart : List CartItem := [{ item_id := 1, quantity := 2, price := 10 }]

/-- The concrete successful purchase run. -/
def w1Out : DB × Except String PurchaseRes := purchaseHandler purchaseDB 7 w1Cart

/-- Database after the concrete successful purchase run. -/
def w1After : DB := w1Out.1

/-- Response of the concrete successful purchase run. -/
def w1Res : PurchaseRes :=
  match w1Out.2 with
  | Except.ok r => r
  | Except.error _ => defaultPurchaseRes

/-- Database after the concrete accepted reconciliation run. -/
def reconDB : DB :=
  { emptyDB with inventory :=
      [{ user_id := 7, item_id := 1, total_quantity := 5, quantity_in_bag := 2 }] }

/-- State for the read runs: user 7 owning item 1 in category 1. -/
def readDB : DB :=
  { emptyDB with
      users := [{ id := 1, user_id := 7, credits := 100 }],
      items := [mkItem 1 10],
      categories := [mkCategory 1],
      item_categories := [{ item_id := 1, category_id := 1 }],
      inventory := [{ user_id := 1, item_id := 1, total_quantity := 3, quantity_in_bag := 2 }] }

/-- Item view of the concrete single-item read. -/
def w8ItemView : ItemWithCats :=
  match getItemByIdP8 readDB 1 with
  | Except.ok v => v
  | Except.error _ => { item := mkItem 1 10, categories := [] }

/-- Category view of the concrete single-category read. -/
def w8CatView : CategoryRow × List ItemRow :=
  match getCategoryByIdP5 readDB 1 with
  | Except.ok v => v
  | Except.error _ => (mkCategory 1, [])

/-- The concrete inventory read. -/
def w8InvOut : DB × Except String InvView := getInventory readDB 7

/-- Inventory view of the concrete inventory read. -/
def w8View : InvView :=
  match w8InvOut.2 with
  | Except.ok v => v
  | Except.error _ => { id := 0, user_id := 0, credits := 0, inventory := [], bag := [] }

/-! ## Theorems -/

theorem purchaseLineStep_users (userId tid : Int) (db : DB) (it : CartItem) :
    (purchaseLineStep userId tid db it).users = db.users := by
  simp only [purchaseLineStep]
  split <;> rfl

theorem purchaseLineStep_ptx (userId tid : Int) (db : DB) (it : CartItem) :
    (purchaseLineStep userId tid db it).purchase_transactions =
      db.purchase_transactions := by
  simp only [purchaseLineStep]
  split <;> rfl

theorem foldl_purchaseLineStep_users (userId tid : Int) (items : List CartItem) :
    ∀ db : DB, (items.foldl (purchaseLineStep userId tid) db).users = db.users := by
  induction items with
  | nil => intro db; rfl
  | cons it rest ih =>
    intro db
    rw [List.foldl_cons, ih, purchaseLineStep_users]

theorem foldl_purchaseLineStep_ptx (userId tid : Int) (items : List CartItem) :
    ∀ db : DB, (items.foldl (purchaseLineStep userId tid) db).purchase_transactions =
      db.purchase_transactions := by
  induction items with
  | nil => intro db; rfl
  | cons it rest ih =>
    intro db
    rw [List.foldl_cons, ih, purchaseLineStep_ptx]

/-- Claim C1: an accepted purchase records and returns credits_after equal
to credits_before minus the cart total of client-submitted price times
quantity, updates the user's stored credits to exactly that value, and
credits_after is non-negative. -/
theorem purchase_conservation (db : DB) (userId : Int) (items : List CartItem)
    (db2 : DB) (res : PurchaseRes) (c : Int)
    (hrun : purchaseHandler db userId items = (db2, Except.ok res))
    (hcred : verifyUserCredits db userId (cartTotal items) = Except.ok c) :
    res.credits_remaining = c - cartTotal items ∧
    0 ≤ res.credits_remaining ∧
    res.credits_spent = cartTotal items ∧
    db2.purchase_transactions = db.purchase_transactions ++
      [{ id := nextTransactionId db, user_id := userId, credits_before := c,
         credits_after := c - cartTotal items,
         total_credits_spent := cartTotal items }] ∧
    (∀ u ∈ db2.users, u.user_id = userId → u.credits = c - cartTotal items) := by
  unfold purchaseHandler at hrun
  split at hrun
  · exact absurd (congrArg Prod.snd hrun) (by simp)
  · split at hrun
    · exact absurd (congrArg Prod.snd hrun) (by simp)
    · rename_i userCredits hv
      rw [hcred] at hv
      injection hv with hv
      subst hv
      split at hrun
      · exact absurd (congrArg Prod.snd hrun) (by simp)
      · -- the transaction ran
        have hnonneg : 0 ≤ c - cartTotal items := by
          unfold verifyUserCredits at hcred
          split at hcred
          · exact absurd hcred (by simp)
          · split at hcred
            · exact absurd hcred (by simp)
            · rename_i u hu hlt
              injection hcred with hc
              subst hc
              exact sub_nonneg.mpr (le_of_not_lt hlt)
        simp only [processPurchaseTransaction] at hrun
        have hdb : db2 = _ := (Prod.mk.injEq _ _ _ _ ▸ hrun).1.symm
        have hres : Except.ok _ = Except.ok res := (Prod.mk.injEq _ _ _ _ ▸ hrun).2
        injection hres with hres
        subst hdb
        refine ⟨by rw [← hres], by rw [← hres]; exact hnonneg, by rw [← hres], ?_, ?_⟩
        · simp only [foldl_purchaseLineStep_ptx]
        · intro u hu hid
          simp only [foldl_purchaseLineStep_users] at hu
          rcases List.mem_map.mp hu with ⟨u0, _, hu0⟩
          by_cases h0 : u0.user_id = userId
          · rw [← hu0]
            simp [h0]
          · rw [← hu0] at hid ⊢
            simp only [beq_iff_eq, h0, if_false] at hid ⊢

/-- Claim C1 witness: the theorem applied to a concrete accepted purchase. -/
theorem purchase_conservation_witness :
    (purchaseHandler purchaseDB 7 w1Cart = (w1After, Except.ok w1Res) ∧
     verifyUserCredits purchaseDB 7 (cartTotal w1Cart) = Except.ok 100) ∧
    (w1Res.credits_remaining = 100 - cartTotal w1Cart ∧
     0 ≤ w1Res.credits_remaining ∧
     w1Res.credits_spent = cartTotal w1Cart ∧
     w1After.purchase_transactions = purchaseDB.purchase_transactions ++
       [{ id := nextTransactionId purchaseDB, user_id := 7, credits_before := 100,
          credits_after := 100 - cartTotal w1Cart,
          total_credits_spent := cartTotal w1Cart }] ∧
     (∀ u ∈ w1After.users, u.user_id = 7 → u.credits = 100 - cartTotal w1Cart)) :=
  ⟨⟨by decide, by decide⟩,
   purchase_conservation purchaseDB 7 w1Cart w1After w1Res 100 (by decide) (by decide)⟩

/-- Claim C2: a well-formed purchase by an existing user whose stored
credits are below the cart total fails with the Insufficient credits error
mapped to status 400, and the database is returned unchanged. -/
theorem insufficient_credits_rejected (db : DB) (userId : Int) (items : List CartItem)
    (urow : UserRow)
    (hval : validatePurchaseData userId items = Except.ok ())
    (hfind : db.users.find? (fun u => u.user_id == userId) = some urow)
    (hlt : urow.credits < cartTotal items) :
    purchaseHandler db userId items = (db, Except.error "Insufficient credits") ∧
    purchaseStatus "Insufficient credits" = 400 := by
  constructor
  · simp [purchaseHandler, verifyUserCredits, hval, hfind, hlt]
  · decide

/-- Claim C2 witness: a user holding 50 credits and a cart totalling 75. -/
theorem insufficient_credits_rejected_witness :
    (validatePurchaseData 7 [{ item_id := 1, quantity := 1, price := 75 }] = Except.ok () ∧
     poorUserDB.users.find? (fun u => u.user_id == 7) =
       some { id := 1, user_id := 7, credits := 50 } ∧
     (50 : Int) < cartTotal [{ item_id := 1, quantity := 1, price := 75 }]) ∧
    (purchaseHandler poorUserDB 7 [{ item_id := 1, quantity := 1, price := 75 }] =
       (poorUserDB, Except.error "Insufficient credits") ∧
     purchaseStatus "Insufficient credits" = 400) :=
  ⟨⟨by decide, by decide, by decide⟩,
   insufficient_credits_rejected poorUserDB 7 [{ item_id := 1, quantity := 1, price := 75 }]
     { id := 1, user_id := 7, credits := 50 } (by decide) (by decide) (by decide)⟩

/-- Claim C10: a cart that repeats the same live item in two lines, with
positive quantities and prices and ample credits, is rejected by the item
verification with the One or more items not found error mapped to 404,
because the count of distinct database rows is compared with the raw cart
length. -/
theorem duplicate_cart_lines_rejected :
    validatePurchaseData 7 [{ item_id := 1, quantity := 1, price := 5 },
      { item_id := 1, quantity := 2, price := 5 }] = Except.ok () ∧
    verifyUserCredits purchaseDB 7 (cartTotal [{ item_id := 1, quantity := 1, price := 5 },
      { item_id := 1, quantity := 2, price := 5 }]) = Except.ok 100 ∧
    (∀ r ∈ purchaseDB.items, r.is_active = 1 ∧ r.is_deleted = 0) ∧
    purchaseHandler purchaseDB 7 [{ item_id := 1, quantity := 1, price := 5 },
      { item_id := 1, quantity := 2, price := 5 }] =
      (purchaseDB, Except.error "One or more items not found") ∧
    purchaseStatus "One or more items not found" = 404 := by decide

theorem buildInventoryRows_sound (userId : Int) (bag : List InvEntry) :
    ∀ (l : List InvEntry) (rows : List InventoryRow),
      buildInventoryRows userId bag l = Except.ok rows →
      ∀ row ∈ rows, row.user_id = userId ∧ 0 ≤ row.quantity_in_bag ∧
        row.quantity_in_bag ≤ row.total_quantity := by
  intro l
  induction l with
  | nil =>
    intro rows h row hrow
    injection h with h
    subst h
    simp at hrow
  | cons it rest ih =>
    intro rows h row hrow
    unfold buildInventoryRows at h
    split at h
    · exact absurd h (by simp)
    · rename_i tq hq
      split at h
      · exact absurd h (by simp)
      · rename_i htq
        split at h
        · exact absurd h (by simp)
        · rename_i qb hqb
          split at h
          · exact absurd h (by simp)
          · rename_i hqbneg
            split at h
            · exact absurd h (by simp)
            · rename_i hexceed
              split at h
              · exact absurd h (by simp)
              · rename_i rows0 hrec
                injection h with h
                subst h
                rcases List.mem_cons.mp hrow with hhead | htail
                · subst hhead
                  refine ⟨rfl, ?_, ?_⟩
                  · exact le_of_not_lt hqbneg
                  · exact le_of_not_lt hexceed
                · exact ih rows0 hrec row htail

theorem buildInventoryRows_ok_head (userId : Int) (bag : List InvEntry)
    (a : InvEntry) (rest : List InvEntry) (rows : List InventoryRow)
    (h : buildInventoryRows userId bag (a :: rest) = Except.ok rows) :
    entryViolates bag a = false ∧
    ∃ rows0, buildInventoryRows userId bag rest = Except.ok rows0 := by
  unfold buildInventoryRows at h
  split at h
  · exact absurd h (by simp)
  · rename_i tq hq
    split at h
    · exact absurd h (by simp)
    · rename_i htq
      split at h
      · exact absurd h (by simp)
      · rename_i qb hqb
        split at h
        · exact absurd h (by simp)
        · rename_i hqbneg
          split at h
          · exact absurd h (by simp)
          · rename_i hexceed
            split at h
            · exact absurd h (by simp)
            · rename_i rows0 hrec
              refine ⟨?_, rows0, hrec⟩
              simp [entryViolates, hq, hqb, htq, hqbneg, hexceed]

theorem buildInventoryRows_err (userId : Int) (bag : List InvEntry) :
    ∀ (l : List InvEntry), (∃ it ∈ l, entryViolates bag it = true) →
      ∃ e, buildInventoryRows userId bag l = Except.error e := by
  intro l
  induction l with
  | nil =>
    rintro ⟨it, hmem, _⟩
    simp at hmem
  | cons it rest ih =>
    rintro ⟨a, hmem, hviol⟩
    cases hx : buildInventoryRows userId bag (it :: rest) with
    | error e => exact ⟨e, rfl⟩
    | ok rows =>
      exfalso
      obtain ⟨hok, rows0, hrec⟩ := buildInventoryRows_ok_head userId bag it rest rows hx
      rcases List.mem_cons.mp hmem with heq | hmem2
      · subst heq
        rw [hviol] at hok
        exact Bool.true_eq_false.mp hok
      · rcases ih ⟨a, hmem2, hviol⟩ with ⟨e, he⟩
        rw [hrec] at he
        exact absurd he (by simp)

/-- Claim C3: an accepted reconciliation leaves every inventory row of the
user with 0 ≤ quantity_in_bag ≤ total_quantity, the bag quantity being the
parsed bag-array match (0 without one); a payload with any violating entry
is rejected whole, the prior rows staying untouched. -/
theorem inventory_reconciliation_invariant (db : DB) (userId : Int)
    (inventory bag : List InvEntry) (db2 : DB) (r : Except String String)
    (hrun : processInventoryUpdate db userId inventory bag = (db2, r)) :
    ((∃ m, r = Except.ok m) →
      ∀ row ∈ db2.inventory, row.user_id = userId →
        0 ≤ row.quantity_in_bag ∧ row.quantity_in_bag ≤ row.total_quantity) ∧
    ((∃ it ∈ inventory, entryViolates bag it = true) →
      db2 = db ∧ ∃ e, r = Except.error e) := by
  unfold processInventoryUpdate at hrun
  constructor
  · rintro ⟨m, hm⟩ row hrow hrid
    split at hrun
    · rename_i e he
      injection hrun with h1 h2
      rw [hm] at h2
      exact absurd h2 (by simp)
    · rename_i rows hrows
      injection hrun with h1 h2
      rw [← h1] at hrow
      rcases List.mem_append.mp hrow with hold | hnew
      · have := (List.mem_filter.mp hold).2
        simp only [Bool.not_eq_true', beq_eq_false_iff_ne] at this
        exact absurd hrid this
      · exact (buildInventoryRows_sound userId bag inventory rows hrows row hnew).2
  · rintro ⟨it, hmem, hviol⟩
    rcases buildInventoryRows_err userId bag inventory ⟨it, hmem, hviol⟩ with ⟨e, he⟩
    rw [he] at hrun
    injection hrun with h1 h2
    exact ⟨h1.symm, e, h2.symm⟩

/-- Claim C3 witness: the theorem applied to a concrete accepted
reconciliation with one item of total 5 and bag quantity 2. -/
theorem inventory_reconciliation_invariant_witness :
    (processInventoryUpdate emptyDB 7 [{ item_id := 1, quantity := some 5 }]
        [{ item_id := 1, quantity := some 2 }] =
      (reconDB, Except.ok "Inventario y bolsa actualizados correctamente.")) ∧
    (((∃ m, (Except.ok "Inventario y bolsa actualizados correctamente." :
          Except String String) = Except.ok m) →
      ∀ row ∈ reconDB.inventory, row.user_id = 7 →
        0 ≤ row.quantity_in_bag ∧ row.quantity_in_bag ≤ row.total_quantity) ∧
     ((∃ it ∈ [{ item_id := 1, quantity := some 5 }],
          entryViolates [{ item_id := 1, quantity := some 2 }] it = true) →
       reconDB = emptyDB ∧
       ∃ e, (Except.ok "Inventario y bolsa actualizados correctamente." :
          Except String String) = Except.error e)) :=
  ⟨by decide,
   inventory_reconciliation_invariant emptyDB 7 [{ item_id := 1, quantity := some 5 }]
     [{ item_id := 1, quantity := some 2 }] reconDB
     (Except.ok "Inventario y bolsa actualizados correctamente.") (by decide)⟩

theorem find?_map_of_pred {α : Type} (f : α → α) (p : α → Bool)
    (h : ∀ x, p (f x) = p x) :
    ∀ l : List α, (l.map f).find? p = (l.find? p).map f := by
  intro l
  induction l with
  | nil => rfl
  | cons x xs ih =>
    simp only [List.map_cons, List.find?, h x]
    cases hp : p x
    · simpa using ih
    · rfl

theorem find?_ext {α : Type} (p q : α → Bool) (h : ∀ a, p a = q a) :
    ∀ l : List α, l.find? p = l.find? q := by
  intro l
  induction l with
  | nil => rfl
  | cons x xs ih =>
    rw [List.find?, List.find?, h x]
    cases hq : q x <;> simp [hq, ih]

theorem find?_comp_softdelete (id userId : Int) (l : List ItemRow) :
    List.find? ((fun r => r.id == id) ∘ fun r =>
      if r.id = id then
        { id := r.id, name := r.name, description := r.description, price := r.price,
          image := r.image, is_active := 0, is_deleted := 1, created_at := r.created_at,
          edited_by := userId } else r) l
    = List.find? (fun r => r.id == id) l := by
  apply find?_ext
  intro x
  by_cases hx : x.id = id <;> simp [Function.comp, hx]

/-- Claim C4 (amended): with a rollback that succeeds, an audit-step
failure inside softDeleteItem is propagated unchanged and the pre-call
state is returned; in the part_004 updateCategory, whose catch guards the
rollback in its own try/catch, the original error survives even a failing
rollback. -/
theorem rollback_restores_state_and_error (db : DB) (id userId : Int) (e rb : String)
    (item : ItemRow) (hfi : db.items.find? (fun r => r.id == id) = some item)
    (hnd : item.is_deleted ≠ 1)
    (cat : CategoryRow) (hfc : db.categories.find? (fun c => c.id == id) = some cat)
    (name image : String) (isActive : Bool) :
    softDeleteItem { auditFails := some e, rollbackFails := none } db id userId
      = (db, Except.error e) ∧
    updateCategoryP4 { auditFails := some e, rollbackFails := some rb } db id name image
      userId isActive = (db, Except.error e) := by
  have hb : (item.is_deleted == 1) = false := by simp [hnd]
  constructor
  · simp [softDeleteItem, hfi, hb, find?_comp_softdelete]
  · simp [updateCategoryP4, hfc]

/-- Claim C4 witness: the theorem applied to a live item and category. -/
theorem rollback_restores_state_and_error_witness :
    (rollbackDB.items.find? (fun r => r.id == 1) = some (mkItem 1 10) ∧
     (mkItem 1 10).is_deleted ≠ 1 ∧
     rollbackDB.categories.find? (fun c => c.id == 1) = some (mkCategory 1)) ∧
    (softDeleteItem { auditFails := some "Audit insert failed", rollbackFails := none } rollbackDB 1 7 = (rollbackDB, Except.error "Audit insert failed") ∧
     updateCategoryP4 { auditFails := some "Audit insert failed", rollbackFails := some "Rollback failed" } rollbackDB 1 "N" "img" 7 true
       = (rollbackDB, Except.error "Audit insert failed")) :=
  ⟨⟨by decide, by decide, by decide⟩,
   rollback_restores_state_and_error rollbackDB 1 7 "Audit insert failed" "Rollback failed"
     (mkItem 1 10) (by decide) (by decide) (mkCategory 1) (by decide) "N" "img" true⟩

/-- Claim C4 counterexample: in softDeleteItem the rollback call is not
guarded, so when the rollback itself throws, its error replaces the
original audit-insert error instead of being merely logged. -/
theorem rollback_failure_replaces_error_cx :
    (softDeleteItem { auditFails := some "Audit insert failed", rollbackFails := some "Rollback failed" } rollbackDB 1 7).2
      = Except.error "Rollback failed" ∧
    (softDeleteItem { auditFails := some "Audit insert failed", rollbackFails := none } rollbackDB 1 7).2
      = Except.error "Audit insert failed" := by decide

theorem itemsToCascade_categories_irrelevant (db : DB) (cats : List CategoryRow)
    (catId : Int) :
    itemsToCascade { db with categories := cats } catId = itemsToCascade db catId := rfl

/-- Claim C5 (amended, cascade handler): deleting an existing non-deleted
category soft-deletes exactly the non-deleted items whose single join row
is to this category, removes every join row of the category, writes one
items_audit row per cascaded item and one categories_audit row, all
committed together; a failure of the final audit insert discards the whole
transaction. -/
theorem category_delete_cascade (db : DB) (id userId : Int) (cat : CategoryRow)
    (hfc : db.categories.find? (fun c => c.id == id) = some cat)
    (hnd : cat.is_deleted ≠ 1) :
    (∀ iid, iid ∈ itemsToCascade db id ↔
       ∃ i ∈ db.items, i.id = iid ∧ i.is_deleted = 0 ∧
         (∃ j ∈ db.item_categories, j.item_id = iid ∧ j.category_id = id) ∧
         (db.item_categories.filter (fun j => j.item_id == iid)).length = 1) ∧
    softDeleteCategory noFaults db id userId =
      ({ db with
           categories := db.categories.map (fun c =>
             if c.id == id then
               { c with is_active := 0, is_deleted := 1, edited_by := userId } else c),
           items := db.items.map (fun i =>
             if (itemsToCascade db id).contains i.id then
               { i with is_active := 0, is_deleted := 1, edited_by := userId } else i),
           items_audit := db.items_audit ++ (itemsToCascade db id).map (fun iid =>
             { entity_id := iid, user_id := userId, action_type := "DELETE" }),
           item_categories := db.item_categories.filter (fun j => !(j.category_id == id)),
           categories_audit := db.categories_audit ++
             [{ entity_id := id, user_id := userId, action_type := "DELETE" }] },
       Except.ok cat) ∧
    (∀ e, softDeleteCategory { auditFails := some e, rollbackFails := none } db id userId
       = (db, Except.error e)) := by
  have hbc : (cat.is_deleted == 1) = false := by simp [hnd]
  refine ⟨?_, ?_, ?_⟩
  · intro iid
    constructor
    · intro h
      rcases List.mem_map.mp h with ⟨i, hif, hid⟩
      rcases List.mem_filter.mp hif with ⟨hi, hP⟩
      simp only [Bool.and_eq_true, beq_iff_eq, List.any_eq_true] at hP
      rcases hP with ⟨⟨h1, j, hj, hji, hjc⟩, hlen⟩
      subst hid
      exact ⟨i, hi, rfl, h1, ⟨j, hj, hji, hjc⟩, hlen⟩
    · rintro ⟨i, hi, hid, h1, ⟨j, hj, hji, hjc⟩, hlen⟩
      subst hid
      refine List.mem_map.mpr ⟨i, List.mem_filter.mpr ⟨hi, ?_⟩, rfl⟩
      simp only [Bool.and_eq_true, beq_iff_eq, List.any_eq_true]
      exact ⟨⟨h1, j, hj, hji, hjc⟩, hlen⟩
  · simp [softDeleteCategory, hfc, hbc, noFaults, itemsToCascade_categories_irrelevant]
  · intro e
    simp [softDeleteCategory, hfc, hbc, itemsToCascade_categories_irrelevant]

/-- Claim C5 witness: the theorem applied to a category whose single item
has it as sole category. -/
theorem category_delete_cascade_witness :
    (soleCategoryDB.categories.find? (fun c => c.id == 1) = some (mkCategory 1) ∧
     (mkCategory 1).is_deleted ≠ 1) ∧
    ((∀ iid, iid ∈ itemsToCascade soleCategoryDB 1 ↔
        ∃ i ∈ soleCategoryDB.items, i.id = iid ∧ i.is_deleted = 0 ∧
          (∃ j ∈ soleCategoryDB.item_categories, j.item_id = iid ∧ j.category_id = 1) ∧
          (soleCategoryDB.item_categories.filter (fun j => j.item_id == iid)).length = 1) ∧
     softDeleteCategory noFaults soleCategoryDB 1 7 =
       ({ soleCategoryDB with
            categories := soleCategoryDB.categories.map (fun c =>
              if c.id == 1 then
                { c with is_active := 0, is_deleted := 1, edited_by := 7 } else c),
            items := soleCategoryDB.items.map (fun i =>
              if (itemsToCascade soleCategoryDB 1).contains i.id then
                { i with is_active := 0, is_deleted := 1, edited_by := 7 } else i),
            items_audit := soleCategoryDB.items_audit ++
              (itemsToCascade soleCategoryDB 1).map (fun iid =>
                { entity_id := iid, user_id := 7, action_type := "DELETE" }),
            item_categories := soleCategoryDB.item_categories.filter
              (fun j => !(j.category_id == 1)),
            categories_audit := soleCategoryDB.categories_audit ++
              [{ entity_id := 1, user_id := 7, action_type := "DELETE" }] },
        Except.ok (mkCategory 1)) ∧
     (∀ e, softDeleteCategory { auditFails := some e, rollbackFails := none }
        soleCategoryDB 1 7 = (soleCategoryDB, Except.error e))) :=
  ⟨⟨by decide, by decide⟩,
   category_delete_cascade soleCategoryDB 1 7 (mkCategory 1) (by decide) (by decide)⟩

/-- Claim C5 counterexample: the second delete-category handler commits a
delete of an existing non-deleted category while keeping the join row of
its sole-category item, leaving the item live and writing no items_audit
row — the cascade the claim requires of every category delete does not
happen here. -/
theorem category_delete_no_cascade_cx :
    deleteCategoryNoCascade soleCategoryDB 1 7 =
      ({ soleCategoryDB with
           categories := [{ mkCategory 1 with is_active := 0, is_deleted := 1, edited_by := 7 }],
           categories_audit := [{ entity_id := 1, user_id := 7, action_type := "DELETE" }] },
       Except.ok { mkCategory 1 with is_active := 0, is_deleted := 1, edited_by := 7 }) ∧
    (mkCategory 1).is_deleted = 0 ∧
    itemsToCascade soleCategoryDB 1 = [10] ∧
    (deleteCategoryNoCascade soleCategoryDB 1 7).1.item_categories =
      [{ item_id := 10, category_id := 1 }] ∧
    (deleteCategoryNoCascade soleCategoryDB 1 7).1.items = [mkItem 10 5] ∧
    (deleteCategoryNoCascade soleCategoryDB 1 7).1.items_audit = [] := by decide

/-- Claim C7 (amended): the handlers that check the flag reject mutations
of a soft-deleted row and leave the state untouched — item delete with the
already-deleted error, item update and the netlify category update with
the cannot-modify-deleted errors, cascade category delete with the
already-deleted error. The part_003/part_004 category update and the
second delete-category handler perform no such check. -/
theorem deleted_row_mutation_guard (db : DB) (id userId : Int)
    (item : ItemRow) (hfi : db.items.find? (fun r => r.id == id) = some item)
    (hdi : item.is_deleted = 1)
    (cat : CategoryRow) (hfc : db.categories.find? (fun c => c.id == id) = some cat)
    (hdc : cat.is_deleted = 1)
    (name description image : String) (price : Int) (isActive : Bool) :
    softDeleteItem noFaults db id userId = (db, Except.error "Item is already deleted") ∧
    updateItemGI db id name description price image userId isActive =
      (db, Except.error "Cannot update a deleted item") ∧
    softDeleteCategory noFaults db id userId =
      (db, Except.error "Category is already deleted") ∧
    updateCategoryNetlify db id (some name) (some image) userId (some isActive) =
      (db, Except.error "Cannot update a deleted category") := by
  refine ⟨?_, ?_, ?_, ?_⟩
  · simp [softDeleteItem, hfi, hdi, noFaults]
  · simp [updateItemGI, hfi, hdi]
  · simp [softDeleteCategory, hfc, hdc, noFaults]
  · simp [updateCategoryNetlify, hfc, hdc]

/-- Claim C7 witness: the theorem applied to a soft-deleted item and a
soft-deleted category. -/
theorem deleted_row_mutation_guard_witness :
    (deletedRowsDB.items.find? (fun r => r.id == 1) =
       some { mkItem 1 10 with is_active := 0, is_deleted := 1 } ∧
     ({ mkItem 1 10 with is_active := 0, is_deleted := 1 } : ItemRow).is_deleted = 1 ∧
     deletedRowsDB.categories.find? (fun c => c.id == 1) =
       some { mkCategory 1 with name := "Old", is_active := 0, is_deleted := 1 } ∧
     ({ mkCategory 1 with name := "Old", is_active := 0, is_deleted := 1 } :
        CategoryRow).is_deleted = 1) ∧
    (softDeleteItem noFaults deletedRowsDB 1 7 =
       (deletedRowsDB, Except.error "Item is already deleted") ∧
     updateItemGI deletedRowsDB 1 "N" "D" 3 "img" 7 true =
       (deletedRowsDB, Except.error "Cannot update a deleted item") ∧
     softDeleteCategory noFaults deletedRowsDB 1 7 =
       (deletedRowsDB, Except.error "Category is already deleted") ∧
     updateCategoryNetlify deletedRowsDB 1 (some "N") (some "img") 7 (some true) =
       (deletedRowsDB, Except.error "Cannot update a deleted category")) :=
  ⟨⟨by decide, by decide, by decide, by decide⟩,
   deleted_row_mutation_guard deletedRowsDB 1 7
     { mkItem 1 10 with is_active := 0, is_deleted := 1 } (by decide) (by decide)
     { mkCategory 1 with name := "Old", is_active := 0, is_deleted := 1 }
     (by decide) (by decide) "N" "D" "img" 3 true⟩

/-- Claim C7 counterexample: the part_004 updateCategory has no
is_deleted check, so updating a soft-deleted category succeeds, changes
the row and writes an audit row instead of failing with a
cannot-modify-deleted error. -/
theorem deleted_category_update_succeeds_cx :
    (∀ c ∈ deletedRowsDB.categories, c.is_deleted = 1) ∧
    updateCategoryP4 noFaults deletedRowsDB 1 "NewName" "newimg.png" 7 true =
      ({ deletedRowsDB with
           categories := [{ id := 1, name := "NewName", image := "newimg.png", is_active := 1, is_deleted := 1, edited_by := 7 }],
           categories_audit := [{ entity_id := 1, user_id := 7, action_type := "UPDATE" }] },
       Except.ok 1) := by decide

/-- Claim C6 (amended): the netlify get-items handler supports pagination
— page and limit are accepted parameters, validated to page at least 1 and
limit between 1 and 24, and the list response carries the items of the page
with a pagination object holding total, page, limit and pages — while the
get-categories handlers recognise only the id parameter, so a page or
limit parameter is rejected there. -/
theorem pagination_support (p l : Int) (db : DB) (page limit : Int) :
    (validatePagination (some p) (some l) = Except.ok () ↔ 1 ≤ p ∧ 1 ≤ l ∧ l ≤ 24) ∧
    validateUrlParamsGetItemsNetlify ["page", "limit"] = Except.ok () ∧
    (getItemsListNetlify db page limit).pagination.total
        = (db.items.filter (fun i => i.is_deleted == 0)).length ∧
    (getItemsListNetlify db page limit).pagination.page = page ∧
    (getItemsListNetlify db page limit).pagination.limit = limit ∧
    (getItemsListNetlify db page limit).pagination.pages
        = ceilDivNat (db.items.filter (fun i => i.is_deleted == 0)).length limit.toNat ∧
    (getItemsListNetlify db page limit).items.length ≤ limit.toNat ∧
    (∀ q, validateUrlParamsGetCategories [q] = Except.ok () ↔ q = "id") := by
  refine ⟨?_, by decide, rfl, rfl, rfl, rfl, ?_, ?_⟩
  · by_cases h1 : p < 1
    · simp [validatePagination, validateLimitParam, h1]
    · by_cases h2 : l < 1
      · simp [validatePagination, validateLimitParam, h1, h2]
      · by_cases h3 : 24 < l
        · simp [validatePagination, validateLimitParam, h1, h2, h3]
        · simp [validatePagination, validateLimitParam, h1, h2, h3]
          omega
  · simp only [getItemsListNetlify, List.length_map, List.length_take]
    exact min_le_left _ _
  · intro q
    by_cases hq : q = "id" <;> simp [validateUrlParamsGetCategories, List.find?, hq]

/-- Claim C6 counterexample: a get-categories request with a page parameter
is rejected as an invalid parameter with status 400 — the get-categories
list read does not support pagination parameters. -/
theorem pagination_missing_on_categories_cx :
    validateUrlParamsGetCategories ["page", "limit"] =
      Except.error "Invalid parameter: page" ∧
    getCategoriesStatus "Invalid parameter: page" = 400 := by decide

theorem mem_insertByNameAsc (x a : InvItemView) (l : List InvItemView)
    (h : x ∈ insertByNameAsc a l) : x = a ∨ x ∈ l := by
  induction l with
  | nil => simp [insertByNameAsc] at h; exact Or.inl h
  | cons y ys ih =>
    unfold insertByNameAsc at h
    split at h
    · exact List.mem_cons.mp h
    · rcases List.mem_cons.mp h with h1 | h2
      · exact Or.inr (List.mem_cons.mpr (Or.inl h1))
      · rcases ih h2 with h3 | h4
        · exact Or.inl h3
        · exact Or.inr (List.mem_cons.mpr (Or.inr h4))

theorem mem_sortInvByName (x : InvItemView) : ∀ l, x ∈ sortInvByName l → x ∈ l := by
  intro l
  induction l with
  | nil => intro h; simp [sortInvByName] at h
  | cons a as ih =>
    intro h
    unfold sortInvByName at h
    rcases mem_insertByNameAsc x a (sortInvByName as) h with h1 | h2
    · exact List.mem_cons.mpr (Or.inl h1)
    · exact List.mem_cons.mpr (Or.inr (ih h2))

theorem categoriesOfItem_not_deleted (db : DB) (iid : Int) :
    ∀ c ∈ categoriesOfItem db iid, c.is_deleted = 0 := by
  intro c hc
  rcases List.mem_filterMap.mp hc with ⟨j, _, hf⟩
  revert hf
  cases hfind : db.categories.find? (fun c0 => c0.id == j.category_id) with
  | none => intro hf; exact absurd hf (by simp)
  | some c0 =>
    intro hf
    by_cases hd : (c0.is_deleted == 0) = true
    · simp only [hd, if_true, Option.some.injEq] at hf
      rw [← hf]
      exact beq_iff_eq.mp hd
    · simp [hd] at hf

theorem itemsOfCategoryP5_not_deleted (db : DB) (catId : Int) :
    ∀ i ∈ itemsOfCategoryP5 db catId, i.is_deleted = 0 := by
  intro i hi
  rcases List.mem_filterMap.mp hi with ⟨j, _, hf⟩
  revert hf
  cases hfind : db.items.find? (fun i0 => i0.id == j.item_id) with
  | none => intro hf; exact absurd hf (by simp)
  | some i0 =>
    intro hf
    by_cases hd : (i0.is_deleted == 0) = true
    · simp only [hd, if_true, Option.some.injEq] at hf
      rw [← hf]
      exact beq_iff_eq.mp hd
    · simp [hd] at hf

/-- Claim C8 (amended): the part_008 item reads, the part_005 category
reads and the get-inventories read never return a row with is_deleted = 1,
either as the top-level entity or inside a joined collection; the netlify
get-categories variant, which has no is_deleted filter, is the exception. -/
theorem soft_delete_exclusion (db : DB) (id uid : Int) (iv : ItemWithCats)
    (cv : CategoryRow × List ItemRow) (db2 : DB) (view : InvView)
    (hi : getItemByIdP8 db id = Except.ok iv)
    (hc : getCategoryByIdP5 db id = Except.ok cv)
    (hinv : getInventory db uid = (db2, Except.ok view)) :
    iv.item.is_deleted = 0 ∧ (∀ c ∈ iv.categories, c.is_deleted = 0) ∧
    (∀ i ∈ getItemsAllP8 db, i.is_deleted = 0) ∧
    (∀ c ∈ getCategoriesAllP5 db, c.is_deleted = 0) ∧
    cv.1.is_deleted = 0 ∧ (∀ i ∈ cv.2, i.is_deleted = 0) ∧
    (∀ e ∈ view.inventory, e.item.is_deleted = 0 ∧ ∀ c ∈ e.categories, c.is_deleted = 0) ∧
    (∀ e ∈ view.bag, e.item.is_deleted = 0) := by
  have hviewinv : ∀ e ∈ view.inventory,
      e.item.is_deleted = 0 ∧ ∀ c ∈ e.categories, c.is_deleted = 0 := by
    unfold getInventory at hinv
    split at hinv
    · rename_i hfu
      simp only [registerNewUser, List.find?_append, hfu, Option.none_or, List.find?,
        beq_self_eq_true] at hinv
      injection hinv with h1 h2
      injection h2 with h2
      rw [← h2]
      intro e he
      simp at he
    · rename_i user hfu
      injection hinv with h1 h2
      injection h2 with h2
      rw [← h2]
      intro e he
      have hj := mem_sortInvByName e _ he
      rcases List.mem_filterMap.mp hj with ⟨r, _, hf⟩
      revert hf
      cases hfind : db.items.find? (fun i0 => i0.id == r.item_id) with
      | none => intro hf; exact absurd hf (by simp)
      | some i0 =>
        intro hf
        by_cases hd : (i0.is_deleted == 0) = true
        · simp only [hd, if_true, Option.some.injEq] at hf
          rw [← hf]
          exact ⟨beq_iff_eq.mp hd, categoriesOfItem_not_deleted db i0.id⟩
        · simp [hd] at hf
  refine ⟨?_, ?_, ?_, ?_, ?_, ?_, hviewinv, ?_⟩
  · unfold getItemByIdP8 at hi
    split at hi
    · exact absurd hi (by simp)
    · rename_i i hfind
      injection hi with hi
      rw [← hi]
      have := List.find?_some hfind
      simp only [Bool.and_eq_true, beq_iff_eq] at this
      exact this.2
  · unfold getItemByIdP8 at hi
    split at hi
    · exact absurd hi (by simp)
    · rename_i i hfind
      injection hi with hi
      rw [← hi]
      exact categoriesOfItem_not_deleted db id
  · intro i hi2
    have := (List.mem_filter.mp hi2).2
    exact beq_iff_eq.mp this
  · intro c hc2
    have := (List.mem_filter.mp hc2).2
    exact beq_iff_eq.mp this
  · unfold getCategoryByIdP5 at hc
    split at hc
    · exact absurd hc (by simp)
    · rename_i c hfind
      injection hc with hc
      rw [← hc]
      have := List.find?_some hfind
      simp only [Bool.and_eq_true, beq_iff_eq] at this
      exact this.2
  · unfold getCategoryByIdP5 at hc
    split at hc
    · exact absurd hc (by simp)
    · rename_i c hfind
      injection hc with hc
      rw [← hc]
      exact itemsOfCategoryP5_not_deleted db id
  · intro e he
    unfold getInventory at hinv
    split at hinv
    · rename_i hfu
      simp only [registerNewUser, List.find?_append, hfu, Option.none_or, List.find?,
        beq_self_eq_true] at hinv
      injection hinv with h1 h2
      injection h2 with h2
      rw [← h2] at he
      simp at he
    · rename_i user hfu
      injection hinv with h1 h2
      injection h2 with h2
      rw [← h2] at he
      have hmem := (List.mem_filter.mp he).1
      have hmem2 : e ∈ view.inventory := by
        rw [← h2]
        exact hmem
      exact (hviewinv e hmem2).1

/-- Claim C8 witness: the theorem applied to the concrete read state. -/
theorem soft_delete_exclusion_witness :
    (getItemByIdP8 readDB 1 = Except.ok w8ItemView ∧
     getCategoryByIdP5 readDB 1 = Except.ok w8CatView ∧
     getInventory readDB 7 = (w8InvOut.1, Except.ok w8View)) ∧
    (w8ItemView.item.is_deleted = 0 ∧ (∀ c ∈ w8ItemView.categories, c.is_deleted = 0) ∧
     (∀ i ∈ getItemsAllP8 readDB, i.is_deleted = 0) ∧
     (∀ c ∈ getCategoriesAllP5 readDB, c.is_deleted = 0) ∧
     w8CatView.1.is_deleted = 0 ∧ (∀ i ∈ w8CatView.2, i.is_deleted = 0) ∧
     (∀ e ∈ w8View.inventory, e.item.is_deleted = 0 ∧
        ∀ c ∈ e.categories, c.is_deleted = 0) ∧
     (∀ e ∈ w8View.bag, e.item.is_deleted = 0)) :=
  ⟨⟨by decide, by decide, by decide⟩,
   soft_delete_exclusion readDB 1 7 w8ItemView w8CatView w8InvOut.1 w8View
     (by decide) (by decide) (by decide)⟩

/-- Claim C8 counterexample: the netlify get-categories read returns a row
whose is_deleted flag is 1, because its SELECT has no is_deleted filter. -/
theorem deleted_category_returned_cx :
    getCategoryByIdNetlify deletedRowsDB 1 =
      Except.ok { mkCategory 1 with name := "Old", is_active := 0, is_deleted := 1 } ∧
    ({ mkCategory 1 with name := "Old", is_active := 0, is_deleted := 1 } :
       CategoryRow).is_deleted = 1 ∧
    (∀ c ∈ getCategoriesAllNetlify deletedRowsDB, c.is_deleted = 1) ∧
    getCategoriesAllNetlify deletedRowsDB ≠ [] := by decide

/-- Claim C9: an inventory or bag read for an unknown user_id inserts a
users row with 100 credits and a users_audit INSERT row, and answers with
credits 100 and empty inventory and bag arrays. -/
theorem lazy_registration (db : DB) (userId : Int)
    (hnone : db.users.find? (fun u => u.user_id == userId) = none) :
    getInventory db userId =
      ({ db with
           users := db.users ++ [{ id := nextUserPk db, user_id := userId, credits := 100 }],
           users_audit := db.users_audit ++ [{ user_id := userId, action_type := "INSERT" }] },
       Except.ok { id := nextUserPk db, user_id := userId, credits := 100,
                   inventory := [], bag := [] }) ∧
    getBag db userId =
      ({ db with
           users := db.users ++ [{ id := nextUserPk db, user_id := userId, credits := 100 }],
           users_audit := db.users_audit ++
             [{ user_id := nextUserPk db, action_type := "INSERT" }] },
       Except.ok { id := nextUserPk db, user_id := userId, credits := 100,
                   inventory := some [], bag := [] }) := by
  constructor
  · simp only [getInventory, hnone]
    simp only [registerNewUser, List.find?_append, hnone, Option.none_or, List.find?,
      beq_self_eq_true]
  · simp only [getBag, hnone]
    simp only [registerNewUserGB]

/-- Claim C9 witness: the theorem applied to the empty database and user 7. -/
theorem lazy_registration_witness :
    (emptyDB.users.find? (fun u => u.user_id == 7) = none) ∧
    (getInventory emptyDB 7 =
      ({ emptyDB with
           users := emptyDB.users ++ [{ id := nextUserPk emptyDB, user_id := 7, credits := 100 }],
           users_audit := emptyDB.users_audit ++ [{ user_id := 7, action_type := "INSERT" }] },
       Except.ok { id := nextUserPk emptyDB, user_id := 7, credits := 100,
                   inventory := [], bag := [] }) ∧
     getBag emptyDB 7 =
      ({ emptyDB with
           users := emptyDB.users ++ [{ id := nextUserPk emptyDB, user_id := 7, credits := 100 }],
           users_audit := emptyDB.users_audit ++
             [{ user_id := nextUserPk emptyDB, action_type := "INSERT" }] },
       Except.ok { id := nextUserPk emptyDB, user_id := 7, credits := 100,
                   inventory := some [], bag := [] })) :=
  ⟨by decide, lazy_registration emptyDB 7 (by decide)⟩

end Motionshop
